import Mathlib

/-!
Verification of the AQI analysis pipeline: a shallow embedding of the core
normalize → geolocate → classify → aggregate functions of the repository
(`scripts/moenv_aqi_api.py`, `scripts/distance_analysis.py`,
`scripts/aqi_map.py`), together with theorems settling the stated claims.

Conventions of the embedding:
- Python floats are modelled as `ℚ` where the code only compares, counts and
  does field arithmetic, and as `ℝ` where the code applies transcendental
  functions (the Haversine distance).
- A Python value that may be `None` is an `Option`.
- A raw upstream record (a JSON object) is a partial map from field name to a
  `RawValue` (string, number, or `None`).
- Functions that can raise return `Except String`.
-/

set_option maxHeartbeats 1000000

/-- A value found in a raw upstream record: Python `None`, a string, or a
number. -/
inductive RawValue : Type
  | none : RawValue
  | str : String → RawValue
  | num : ℚ → RawValue
deriving DecidableEq

/-- A raw station record from the upstream API: a mapping from field name to
value, `Option.none` when the key is absent. -/
def RawRecord : Type := String → Option RawValue

/-- Python `record.get(key, default)`: the stored value, or `default` when the
key is absent. -/
def pyGet (record : RawRecord) (key : String) (default : RawValue) : RawValue :=
  (record key).getD default

/-- Value of a decimal digit character. -/
def digitVal (c : Char) : Nat := c.toNat - '0'.toNat

/-- Natural number denoted by a list of decimal digit characters. -/
def digitsToNat (cs : List Char) : Nat :=
  cs.foldl (fun n c => 10 * n + digitVal c) 0

/-- Parse an unsigned decimal literal (digits, optionally with a fractional
part) as Python's `float()` accepts it; `Option.none` on anything else.
Exponent/`inf`/`nan` forms, which never occur in this dataset, are omitted. -/
def parseDecimal (cs : List Char) : Option ℚ :=
  let intPart := cs.takeWhile Char.isDigit
  let rest := cs.dropWhile Char.isDigit
  match rest with
  | [] => if intPart.isEmpty then Option.none else some (digitsToNat intPart : ℚ)
  | '.' :: frac =>
      if frac.all Char.isDigit && !(intPart.isEmpty && frac.isEmpty) then
        some ((digitsToNat intPart : ℚ) + (digitsToNat frac : ℚ) / (10 : ℚ) ^ frac.length)
      else Option.none
  | _ => Option.none

/-- Model of Python `float(s)` on a string: an optionally signed decimal
literal, `Option.none` (a raised `ValueError`) otherwise. -/
def strToRat (s : String) : Option ℚ :=
  match s.toList with
  | '-' :: cs => (parseDecimal cs).map (fun q => -q)
  | '+' :: cs => parseDecimal cs
  | cs => parseDecimal cs

/-- Model of `MOENVAQIAPI._parse_numeric` (moenv_aqi_api.py lines 104-111): `None`, the
empty string and the placeholder `"-"` give `None`; otherwise `float(value)`
is attempted and any parse failure is swallowed into `None`. A number parses
to itself. -/
def _parse_numeric (value : RawValue) : Option ℚ :=
  match value with
  | RawValue.none => Option.none
  | RawValue.str s => if s = "" ∨ s = "-" then Option.none else strToRat s
  | RawValue.num q => some q

/-- The canonical normalized station record built by `extract_aqi_data`.
String-typed fields keep whatever raw value the upstream record held (defaulted
by `record.get`); numeric fields go through `_parse_numeric`. -/
structure StationRecord : Type where
  site_id : RawValue
  site_name : RawValue
  county : RawValue
  aqi : Option ℚ
  pm25 : Option ℚ
  pm10 : Option ℚ
  o3 : Option ℚ
  co : Option ℚ
  no2 : Option ℚ
  so2 : Option ℚ
  status : RawValue
  pollutant : RawValue
  latitude : Option ℚ
  longitude : Option ℚ
  publish_time : RawValue
  wind_speed : Option ℚ
  wind_direction : Option ℚ

/-- Body of the loop of `MOENVAQIAPI.extract_aqi_data` (moenv_aqi_api.py lines
74-100): build one `StationRecord` from one raw record. `dict.get` and
`_parse_numeric` are total, so the `except` branch of the source (lines
98-100) is unreachable. -/
def extract_station (record : RawRecord) : StationRecord :=
  { site_id := pyGet record "siteid" (RawValue.str "")
    site_name := pyGet record "sitename" (RawValue.str "")
    county := pyGet record "county" (RawValue.str "")
    aqi := _parse_numeric (pyGet record "aqi" RawValue.none)
    pm25 := _parse_numeric (pyGet record "pm2.5" RawValue.none)
    pm10 := _parse_numeric (pyGet record "pm10" RawValue.none)
    o3 := _parse_numeric (pyGet record "o3" RawValue.none)
    co := _parse_numeric (pyGet record "co" RawValue.none)
    no2 := _parse_numeric (pyGet record "no2" RawValue.none)
    so2 := _parse_numeric (pyGet record "so2" RawValue.none)
    status := pyGet record "status" (RawValue.str "")
    pollutant := pyGet record "pollutant" (RawValue.str "")
    latitude := _parse_numeric (pyGet record "latitude" RawValue.none)
    longitude := _parse_numeric (pyGet record "longitude" RawValue.none)
    publish_time := pyGet record "publishtime" (RawValue.str "")
    wind_speed := _parse_numeric (pyGet record "wind_speed" RawValue.none)
    wind_direction := _parse_numeric (pyGet record "wind_direc" RawValue.none) }

/-- Model of `MOENVAQIAPI.extract_aqi_data` (moenv_aqi_api.py lines 59-102): one
`StationRecord` per raw record, in order. -/
def extract_aqi_data (records : List RawRecord) : List StationRecord :=
  records.map extract_station

/-- The `aqi` column after `dropna()`: the non-missing AQI values, in record
order (moenv_aqi_api.py line 180). -/
def validAqi (df : List StationRecord) : List ℚ :=
  df.filterMap (fun r => r.aqi)

/-- Square of pandas `Series.std()` (default `ddof=1`) over a list of values:
`Option.none` models the NaN that pandas produces when `n - 1 ≤ 0`; for
`n > 1` it is the sample variance `Σ (x - mean)² / (n - 1)`. The square root
taken by pandas is omitted because it has no exact value in `ℚ`; being NaN and
being zero are both preserved by the square root, which is all the claims
need. -/
def series_std_sq (xs : List ℚ) : Option ℚ :=
  if xs.length ≤ 1 then Option.none
  else
    some (((xs.map (fun x => (x - xs.sum / (xs.length : ℚ)) ^ 2)).sum) / ((xs.length : ℚ) - 1))

/-- The six fine AQI severity bands of `get_aqi_statistics` (moenv_aqi_api.py
lines 195-202): label, band minimum, band maximum. -/
def aqi_categories : List (String × ℚ × ℚ) :=
  [("良好", (0, 50)),
   ("普通", (51, 100)),
   ("對敏感族群不健康", (101, 150)),
   ("對所有族群不健康", (151, 200)),
   ("非常不健康", (201, 300)),
   ("危險", (301, 500))]

/-- Membership test of one AQI value in one band, as the code computes it:
`(valid_aqi >= min_val) & (valid_aqi <= max_val)` (moenv_aqi_api.py line
206). -/
def inAqiCategory (c : String × ℚ × ℚ) (a : ℚ) : Bool :=
  decide (c.2.1 ≤ a) && decide (a ≤ c.2.2)

/-- Count of values falling in one band: `((valid_aqi >= min_val) &
(valid_aqi <= max_val)).sum()` (moenv_aqi_api.py line 206). -/
def categoryCount (c : String × ℚ × ℚ) (xs : List ℚ) : Nat :=
  xs.countP (fun a => inAqiCategory c a)

/-- The statistics dictionary built by `get_aqi_statistics` when it is
non-empty (moenv_aqi_api.py lines 185-209). `aqi_std` carries the
`series_std_sq` model of `valid_aqi.std()`. -/
structure AqiStats : Type where
  total_stations : Nat
  stations_with_data : Nat
  aqi_mean : ℚ
  aqi_max : ℚ
  aqi_min : ℚ
  aqi_std : Option ℚ
  categories : List (String × Nat)

/-- Model of `MOENVAQIAPI.get_aqi_statistics` (moenv_aqi_api.py lines 167-211):
an empty frame, or a frame whose `aqi` column is all missing, yields the empty
dictionary (modelled `Option.none`); otherwise the scalar statistics over the
non-missing values and the count of every one of the six bands, zero counts
included. -/
def get_aqi_statistics (df : List StationRecord) : Option AqiStats :=
  if df.isEmpty then Option.none
  else
    match validAqi df with
    | [] => Option.none
    | x :: xs =>
        some { total_stations := df.length
               stations_with_data := (x :: xs).length
               aqi_mean := (x :: xs).sum / ((x :: xs).length : ℚ)
               aqi_max := xs.foldl max x
               aqi_min := xs.foldl min x
               aqi_std := series_std_sq (x :: xs)
               categories := aqi_categories.map (fun c => (c.1, categoryCount c (x :: xs))) }

/-- Caller-side read of a natural-number entry of the statistics dictionary
with a default of 0, as in `stats.get('total_stations', 0)`
(moenv_aqi_api.py line 245). -/
def stats_get_nat (stats : Option AqiStats) (field : AqiStats → Nat) : Nat :=
  match stats with
  | Option.none => 0
  | some st => field st

/-- Caller-side read of a numeric entry of the statistics dictionary with a
default of 0, as in `stats.get('aqi_mean', 0)` (aqi_map.py line 182). -/
def stats_get_rat (stats : Option AqiStats) (field : AqiStats → ℚ) : ℚ :=
  match stats with
  | Option.none => 0
  | some st => field st

/-- Model of `AQIMapVisualizer.get_aqi_color` (aqi_map.py lines 22-39): the coarse
3-level map colour. -/
def get_aqi_color (aqi_value : Option ℚ) : String :=
  match aqi_value with
  | Option.none => "#808080"
  | some v => if v ≤ 50 then "#00E400" else if v ≤ 100 then "#FFFF00" else "#FF0000"

/-- Model of `AQIMapVisualizer.get_aqi_level` (aqi_map.py lines 41-58): the coarse
3-level severity label. -/
def get_aqi_level (aqi_value : Option ℚ) : String :=
  match aqi_value with
  | Option.none => "無數據"
  | some v => if v ≤ 50 then "良好" else if v ≤ 100 then "普通" else "不健康"

/-- Model of `math.radians`: degrees to radians. -/
noncomputable def radians (degrees : ℝ) : ℝ := degrees * (Real.pi / 180)

/-- Model of `math.atan2 y x` restricted to the closed first quadrant, the only region
reachable in `calculate_distance` (both arguments are square roots): for
`x > 0` it is `arctan (y / x)`, for `x ≤ 0 < y` it is `π / 2`, and
`atan2 0 0 = 0` as in CPython. -/
noncomputable def atan2 (y x : ℝ) : ℝ :=
  if 0 < x then Real.arctan (y / x)
  else if 0 < y then Real.pi / 2
  else 0

/-- Model of `DistanceAnalyzer.calculate_distance` (distance_analysis.py lines 28-60):
the Haversine great-circle distance in kilometres with Earth radius
6371.0 km. -/
noncomputable def calculate_distance (lat1 lon1 lat2 lon2 : ℝ) : ℝ :=
  let R : ℝ := 6371.0
  let lat1_rad := radians lat1
  let lon1_rad := radians lon1
  let lat2_rad := radians lat2
  let lon2_rad := radians lon2
  let dlat := lat2_rad - lat1_rad
  let dlon := lon2_rad - lon1_rad
  let a := Real.sin (dlat / 2) ^ 2 + Real.cos lat1_rad * Real.cos lat2_rad * Real.sin (dlon / 2) ^ 2
  let c := 2 * atan2 (Real.sqrt a) (Real.sqrt (1 - a))
  R * c

/-- The Haversine intermediate `a` of `calculate_distance` (distance_analysis.py
lines 52-54), named so theorems can reason about it. -/
noncomputable def hav_a (lat1 lon1 lat2 lon2 : ℝ) : ℝ :=
  Real.sin ((radians lat2 - radians lat1) / 2) ^ 2 +
    Real.cos (radians lat1) * Real.cos (radians lat2) *
      Real.sin ((radians lon2 - radians lon1) / 2) ^ 2

/-- Latitude of the fixed reference point (distance_analysis.py line 24). -/
def taipei_station_latitude : ℚ := 25.0478

/-- Longitude of the fixed reference point (distance_analysis.py line 25). -/
def taipei_station_longitude : ℚ := 121.5170

/-- The valid-coordinate filter of `analyze_distances` (distance_analysis.py
lines 78-81) and of `create_aqi_map` (aqi_map.py lines 79-82): latitude and
longitude both present and both different from 0. -/
def validCoords (r : StationRecord) : Bool :=
  r.latitude.isSome && r.longitude.isSome &&
    !(r.latitude == some 0) && !(r.longitude == some 0)

/-- Model of `DistanceAnalyzer._get_distance_category` (distance_analysis.py lines
122-141): the ascending first-match distance banding. Stated over any linear
ordered field so it can be read back at `ℚ` and applied at `ℝ` inside the
pipeline. -/
def _get_distance_category {α : Type} [LinearOrderedField α] (distance : α) : String :=
  if distance ≤ 10 then "台北市區"
  else if distance ≤ 30 then "北北基桃"
  else if distance ≤ 100 then "北部地區"
  else if distance ≤ 200 then "中部地區"
  else "南部地區"

/-- One row of the distance-analysis result frame (distance_analysis.py lines
96-107). -/
structure DistanceInfo : Type where
  site_id : RawValue
  site_name : RawValue
  county : RawValue
  latitude : ℚ
  longitude : ℚ
  aqi : Option ℚ
  pm25 : Option ℚ
  status : RawValue
  distance_to_taipei : ℝ
  distance_category : String

/-- Body of the distance loop of `analyze_distances` (distance_analysis.py
lines 89-109) for one valid-coordinate record: compute the Haversine distance
to the reference point and attach the distance band. The filter guarantees the
coordinates are present, so `getD 0` never supplies its default. -/
noncomputable def makeDistanceInfo (row : StationRecord) : DistanceInfo :=
  let distance : ℝ :=
    calculate_distance (↑(row.latitude.getD 0)) (↑(row.longitude.getD 0))
      (↑taipei_station_latitude) (↑taipei_station_longitude)
  { site_id := row.site_id
    site_name := row.site_name
    county := row.county
    latitude := row.latitude.getD 0
    longitude := row.longitude.getD 0
    aqi := row.aqi
    pm25 := row.pm25
    status := row.status
    distance_to_taipei := distance
    distance_category := _get_distance_category distance }

/-- Model of the `sort_values` call on the distance column (distance_analysis.py line
118): ascending sort by distance. On an empty row list `pd.DataFrame([])` has
no columns at all, so pandas raises `KeyError` for the missing column; that
raise is the `Except.error` branch. -/
noncomputable def sort_values (l : List DistanceInfo) : Except String (List DistanceInfo) :=
  match l with
  | [] => Except.error "KeyError: distance_to_taipei"
  | x :: xs =>
      Except.ok ((x :: xs).mergeSort
        (fun a b => decide (a.distance_to_taipei ≤ b.distance_to_taipei)))

/-- Model of `DistanceAnalyzer.analyze_distances` (distance_analysis.py lines 62-120):
raise on an empty frame, filter to valid coordinates, compute distances and
bands, sort by distance. -/
noncomputable def analyze_distances (df : List StationRecord) : Except String (List DistanceInfo) :=
  if df.isEmpty then Except.error "無法獲取AQI數據"
  else sort_values ((df.filter validCoords).map makeDistanceInfo)

/-- The valid-coordinate subframe built by `create_aqi_map` (aqi_map.py lines
79-82), identical in form to the filter of `analyze_distances`. -/
def create_aqi_map_valid_df (df : List StationRecord) : List StationRecord :=
  df.filter validCoords

/-- Model of `Series.value_counts().to_dict()` on the band-label column
(distance_analysis.py line 165), read as a mapping (its iteration order,
irrelevant to the claims, is not modelled): each label occurring in the list,
paired with its number of occurrences. A label that never occurs is absent. -/
def value_counts (l : List String) : List (String × Nat) :=
  l.dedup.map (fun v => (v, l.count v))

/-- pandas `Series.median()` over a non-empty list of reals: middle element of
the ascending sort, or the mean of the two middle elements. -/
noncomputable def series_median (xs : List ℝ) : ℝ :=
  let s := xs.mergeSort (fun a b => decide (a ≤ b))
  if xs.length % 2 = 1 then s.getD (xs.length / 2) 0
  else (s.getD (xs.length / 2 - 1) 0 + s.getD (xs.length / 2) 0) / 2

/-- The statistics dictionary of `get_distance_statistics`
(distance_analysis.py lines 156-182). -/
structure DistanceStats : Type where
  total_stations : Nat
  min_distance : ℝ
  max_distance : ℝ
  mean_distance : ℝ
  median_distance : ℝ
  categories : List (String × Nat)
  nearest_name : RawValue
  nearest_county : RawValue
  nearest_distance : ℝ
  farthest_name : RawValue
  farthest_county : RawValue
  farthest_distance : ℝ

/-- Model of `DistanceAnalyzer.get_distance_statistics` (distance_analysis.py lines
143-184): the empty dictionary (`Option.none`) on an empty frame; otherwise
scalar statistics over the distance column, the `value_counts` band
distribution, and the first and last rows as nearest and farthest station. -/
noncomputable def get_distance_statistics (df : List DistanceInfo) : Option DistanceStats :=
  match df with
  | [] => Option.none
  | x :: xs =>
      let ds := (x :: xs).map (fun r => r.distance_to_taipei)
      let farthest := (x :: xs).getLast (List.cons_ne_nil x xs)
      some { total_stations := (x :: xs).length
             min_distance := (xs.map (fun r => r.distance_to_taipei)).foldl min x.distance_to_taipei
             max_distance := (xs.map (fun r => r.distance_to_taipei)).foldl max x.distance_to_taipei
             mean_distance := ds.sum / (ds.length : ℝ)
             median_distance := series_median ds
             categories := value_counts ((x :: xs).map (fun r => r.distance_category))
             nearest_name := x.site_name
             nearest_county := x.county
             nearest_distance := x.distance_to_taipei
             farthest_name := farthest.site_name
             farthest_county := farthest.county
             farthest_distance := farthest.distance_to_taipei }

/-- A station record with given coordinates and AQI and empty string fields,
used to build concrete inputs. -/
def mkStation (lat lon aqi : Option ℚ) : StationRecord :=
  { site_id := RawValue.str ""
    site_name := RawValue.str ""
    county := RawValue.str ""
    aqi := aqi
    pm25 := Option.none
    pm10 := Option.none
    o3 := Option.none
    co := Option.none
    no2 := Option.none
    so2 := Option.none
    status := RawValue.str ""
    pollutant := RawValue.str ""
    latitude := lat
    longitude := lon
    publish_time := RawValue.str ""
    wind_speed := Option.none
    wind_direction := Option.none }

/-- A raw record holding an unparseable AQI string, used as a concrete
malformed input. -/
def rawRecordBadAqi : RawRecord :=
  fun k => if k = "aqi" then some (RawValue.str "abc") else Option.none

/-- A concrete frame with two AQI readings, 1 and 3. -/
def df_pair : List StationRecord :=
  [mkStation Option.none Option.none (some 1), mkStation Option.none Option.none (some 3)]

/-- A concrete frame with a single AQI reading of 5. -/
def df_single : List StationRecord :=
  [mkStation Option.none Option.none (some 5)]

/-- A concrete frame with a single AQI reading of 30. -/
def df_single30 : List StationRecord :=
  [mkStation Option.none Option.none (some 30)]

/-- Claim C10: the two coarse 3-level AQI classifiers always agree — for every
AQI value including `None`, `get_aqi_color` returns green, yellow, red, or
grey exactly when `get_aqi_level` returns good (良好), moderate (普通),
unhealthy (不健康), or no-data (無數據) respectively, both applying the
identical thresholds `value ≤ 50`, `50 < value ≤ 100`, `value > 100`, and
`None`. -/
theorem c10_coarse_classifiers_agree (v : Option ℚ) :
    ((get_aqi_color v = "#00E400" ↔ get_aqi_level v = "良好")
      ∧ (get_aqi_color v = "#FFFF00" ↔ get_aqi_level v = "普通")
      ∧ (get_aqi_color v = "#FF0000" ↔ get_aqi_level v = "不健康")
      ∧ (get_aqi_color v = "#808080" ↔ get_aqi_level v = "無數據"))
  ∧ ((get_aqi_color v = "#00E400" ↔ ∃ q : ℚ, v = some q ∧ q ≤ 50)
      ∧ (get_aqi_color v = "#FFFF00" ↔ ∃ q : ℚ, v = some q ∧ 50 < q ∧ q ≤ 100)
      ∧ (get_aqi_color v = "#FF0000" ↔ ∃ q : ℚ, v = some q ∧ 100 < q)
      ∧ (get_aqi_color v = "#808080" ↔ v = Option.none)) := by
  rcases v with _ | q
  · simp [get_aqi_color, get_aqi_level]
  · simp only [get_aqi_color, get_aqi_level]
    split_ifs with h1 h2 <;>
      refine ⟨⟨?_, ?_, ?_, ?_⟩, ?_, ?_, ?_, ?_⟩ <;> simp <;>
        first
          | linarith
          | (intro h ; linarith)
          | (rintro h h' ; linarith)
          | (exact ⟨by linarith, by linarith⟩)
          | (constructor <;> intro <;> linarith)
          | (constructor <;> linarith)

/-- Claim C2: for every distance `d ≥ 0`, `_get_distance_category` assigns
`d` to exactly one band — `d ≤ 10` gives urban-core (台北市區),
`10 < d ≤ 30` metro-region (北北基桃), `30 < d ≤ 100` northern-region
(北部地區), `100 < d ≤ 200` central-region (中部地區), and `d > 200`
southern-region (南部地區). -/
theorem c2_distance_banding (d : ℚ) (hd : 0 ≤ d) :
    (_get_distance_category d = "台北市區" ↔ d ≤ 10)
  ∧ (_get_distance_category d = "北北基桃" ↔ 10 < d ∧ d ≤ 30)
  ∧ (_get_distance_category d = "北部地區" ↔ 30 < d ∧ d ≤ 100)
  ∧ (_get_distance_category d = "中部地區" ↔ 100 < d ∧ d ≤ 200)
  ∧ (_get_distance_category d = "南部地區" ↔ 200 < d) := by
  unfold _get_distance_category
  split_ifs with h1 h2 h3 h4 <;>
    refine ⟨?_, ?_, ?_, ?_, ?_⟩ <;> simp <;>
      first
        | linarith
        | (intro h ; linarith)
        | (rintro h h' ; linarith)
        | (constructor <;> intro <;> linarith)
        | (exact ⟨by linarith, by linarith⟩)

/-- Witness for C2 at the concrete distance 5: the hypothesis `0 ≤ 5` holds
and the band is urban-core. -/
theorem c2_distance_banding_witness :
    (0 : ℚ) ≤ 5 ∧ _get_distance_category (5 : ℚ) = "台北市區" :=
  ⟨by norm_num, ((c2_distance_banding 5 (by norm_num)).1).mpr (by norm_num)⟩

/-- Claim C3: normalization produces exactly one `StationRecord` per raw
record, in order, never raising and never dropping a record; a numeric field
that is `None`, the empty string, or `"-"` parses to `None`, and any other
non-numeric value also yields `None` with the failure swallowed. -/
theorem c3_normalizer_total (records : List RawRecord) :
    (extract_aqi_data records).length = records.length
  ∧ (∀ i : Nat, (extract_aqi_data records)[i]? = (records[i]?).map extract_station)
  ∧ _parse_numeric RawValue.none = Option.none
  ∧ _parse_numeric (RawValue.str "") = Option.none
  ∧ _parse_numeric (RawValue.str "-") = Option.none
  ∧ (∀ s : String, strToRat s = Option.none → _parse_numeric (RawValue.str s) = Option.none) := by
  refine ⟨by simp [extract_aqi_data], fun i => by simp [extract_aqi_data], rfl, rfl, rfl, ?_⟩
  intro s hs
  by_cases h : s = "" ∨ s = "-"
  · simp [_parse_numeric, h]
  · simp [_parse_numeric, h, hs]

/-- Witness for C3 at a concrete malformed record: one output record is
produced and its unparseable `"abc"` AQI field becomes `None`. -/
theorem c3_normalizer_total_witness :
    (extract_aqi_data [rawRecordBadAqi]).length = 1
  ∧ _parse_numeric (RawValue.str "abc") = Option.none :=
  ⟨(c3_normalizer_total [rawRecordBadAqi]).1.trans rfl,
   (c3_normalizer_total [rawRecordBadAqi]).2.2.2.2.2 "abc" (by decide)⟩

/-- Counterexample to claim C1 as stated: the AQI value 50.5 lies in [0, 500]
but falls in none of the six bands, and a record carrying it is counted in no
band by `get_aqi_statistics`. -/
theorem c1_fine_banding_counterexample :
    ((0 : ℚ) ≤ 101 / 2 ∧ (101 / 2 : ℚ) ≤ 500)
  ∧ (∀ p ∈ aqi_categories, inAqiCategory p (101 / 2) = false)
  ∧ (get_aqi_statistics [mkStation Option.none Option.none (some (101 / 2))]).map
      AqiStats.categories
      = some [("良好", 0), ("普通", 0), ("對敏感族群不健康", 0), ("對所有族群不健康", 0),
              ("非常不健康", 0), ("危險", 0)] := by
  have hv : validAqi [mkStation Option.none Option.none (some (101 / 2))] = [101 / 2] := rfl
  refine ⟨⟨by norm_num, by norm_num⟩, ?_, ?_⟩
  · intro p hp
    fin_cases hp <;>
      · simp only [inAqiCategory]
        rw [Bool.and_eq_false_iff]
        simp only [decide_eq_false_iff_not, not_le]
        norm_num
  · simp only [get_aqi_statistics, hv, List.isEmpty_cons]
    norm_num [aqi_categories, categoryCount, List.countP_cons, List.countP_nil, inAqiCategory]

/-- Claim C1 (amended): every AQI value is assigned to at most one of the six
fine bands; a value inside one of the six closed ranges [0,50], [51,100],
[101,150], [151,200], [201,300], [301,500] is assigned to exactly one; a value
outside [0,500] is in no band; and a missing (`None`) AQI contributes to no
band count because `dropna` removes it before counting. Values strictly
between consecutive bands (such as 50.5) are also in no band. -/
theorem c1_fine_banding (a : ℚ) :
    (∀ p ∈ aqi_categories, ∀ q ∈ aqi_categories,
        inAqiCategory p a = true → inAqiCategory q a = true → p = q)
  ∧ (((0 ≤ a ∧ a ≤ 50) ∨ (51 ≤ a ∧ a ≤ 100) ∨ (101 ≤ a ∧ a ≤ 150) ∨
      (151 ≤ a ∧ a ≤ 200) ∨ (201 ≤ a ∧ a ≤ 300) ∨ (301 ≤ a ∧ a ≤ 500)) ↔
        ∃ p ∈ aqi_categories, inAqiCategory p a = true)
  ∧ ((a < 0 ∨ 500 < a) → ∀ p ∈ aqi_categories, inAqiCategory p a = false)
  ∧ (∀ (df : List StationRecord) (r : StationRecord), r.aqi = Option.none →
        validAqi (r :: df) = validAqi df) := by
  refine ⟨?_, ?_, ?_, ?_⟩
  · intro p hp q hq hpa hqa
    fin_cases hp <;> fin_cases hq <;> simp_all [inAqiCategory] <;> linarith
  · simp only [aqi_categories, inAqiCategory, List.mem_cons, List.not_mem_nil, or_false]
    constructor
    · intro h
      simp only [decide_eq_true_eq, Bool.and_eq_true]
      rcases h with h | h | h | h | h | h
      · exact ⟨("良好", (0, 50)), by tauto, by simpa using h⟩
      · exact ⟨("普通", (51, 100)), by tauto, by simpa using h⟩
      · exact ⟨("對敏感族群不健康", (101, 150)), by tauto, by simpa using h⟩
      · exact ⟨("對所有族群不健康", (151, 200)), by tauto, by simpa using h⟩
      · exact ⟨("非常不健康", (201, 300)), by tauto, by simpa using h⟩
      · exact ⟨("危險", (301, 500)), by tauto, by simpa using h⟩
    · rintro ⟨p, hp, hpa⟩
      rcases hp with h | h | h | h | h | h
      all_goals subst h
      all_goals simp only [Bool.and_eq_true, decide_eq_true_eq] at hpa
      all_goals tauto
  · intro h p hp
    fin_cases hp <;>
      · simp only [inAqiCategory]
        rw [Bool.and_eq_false_iff]
        simp only [decide_eq_false_iff_not, not_le]
        rcases h with h | h
        · exact Or.inl (by linarith)
        · exact Or.inr (by linarith)
  · intro df r hr
    simp [validAqi, hr]

/-- Witness for C1 at the concrete value 25: it lies in the good band's range
and is assigned to some band. -/
theorem c1_fine_banding_witness :
    ∃ p ∈ aqi_categories, inAqiCategory p (25 : ℚ) = true :=
  (c1_fine_banding 25).2.1.mp (Or.inl ⟨by norm_num, by norm_num⟩)

/-- Helper: a frame whose `aqi` column has a non-missing value is itself
non-empty, and `get_aqi_statistics` returns the fully computed dictionary. -/
lemma get_aqi_statistics_eq (df : List StationRecord) (x : ℚ) (xs : List ℚ)
    (hm : validAqi df = x :: xs) :
    get_aqi_statistics df =
      some { total_stations := df.length
             stations_with_data := (x :: xs).length
             aqi_mean := (x :: xs).sum / ((x :: xs).length : ℚ)
             aqi_max := xs.foldl max x
             aqi_min := xs.foldl min x
             aqi_std := series_std_sq (x :: xs)
             categories := aqi_categories.map (fun c => (c.1, categoryCount c (x :: xs))) } := by
  have hdf : df.isEmpty = false := by
    cases df
    · simp [validAqi] at hm
    · rfl
  simp only [get_aqi_statistics, hdf, Bool.false_eq_true, if_false, hm]

/-- Helper: a frame that is empty or whose `aqi` column is all missing yields
the empty statistics dictionary. -/
lemma get_aqi_statistics_none (df : List StationRecord) (hm : validAqi df = []) :
    get_aqi_statistics df = Option.none := by
  cases hdf : df.isEmpty
  · simp only [get_aqi_statistics, hdf, Bool.false_eq_true, if_false, hm]
  · simp only [get_aqi_statistics, hdf, if_true]

/-- Helper: expansion of the sum of squared deviations about an arbitrary
center. -/
lemma sum_sq_dev (l : List ℚ) (m : ℚ) :
    (l.map (fun x => (x - m) ^ 2)).sum
      = (l.map (fun x => x ^ 2)).sum - 2 * m * l.sum + (l.length : ℚ) * m ^ 2 := by
  induction l with
  | nil => simp
  | cons a t ih =>
      simp only [List.map_cons, List.sum_cons, List.length_cons, ih]
      push_cast
      ring

/-- Counterexample to claim C4 as stated: a collection with exactly one
non-missing AQI value reports a NaN standard deviation (`Option.none` in the
model), not 0. -/
theorem c4_sample_std_counterexample :
    (get_aqi_statistics df_single).map AqiStats.stations_with_data = some 1
  ∧ (get_aqi_statistics df_single).map AqiStats.aqi_std = some Option.none
  ∧ (get_aqi_statistics df_single).map AqiStats.aqi_std ≠ some (some 0) := by
  decide

/-- Claim C4 (amended): the aggregated standard deviation uses the sample
(n−1) definition when the number n of non-missing values exceeds 1 — its
square v satisfies the sample-variance identity
`v·n·(n−1) = n·Σx² − (Σx)²` — but for n = 1 pandas reports NaN (not 0), and
for n = 0 no statistics dictionary is produced at all. -/
theorem c4_sample_std (df : List StationRecord) :
    (1 < (validAqi df).length →
       ∃ st v, get_aqi_statistics df = some st ∧ st.aqi_std = some v
         ∧ v * (((validAqi df).length : ℚ) * (((validAqi df).length : ℚ) - 1))
             = ((validAqi df).length : ℚ) * ((validAqi df).map (fun x => x ^ 2)).sum
               - ((validAqi df).sum) ^ 2)
  ∧ ((validAqi df).length = 1 →
       ∃ st, get_aqi_statistics df = some st ∧ st.aqi_std = Option.none)
  ∧ ((validAqi df).length = 0 → get_aqi_statistics df = Option.none) := by
  refine ⟨?_, ?_, ?_⟩
  · intro hlen
    obtain ⟨x, xs, hm⟩ : ∃ x xs, validAqi df = x :: xs := by
      cases hv : validAqi df
      · rw [hv] at hlen; simp at hlen
      · exact ⟨_, _, rfl⟩
    rw [hm] at hlen
    refine ⟨_, (((x :: xs).map (fun y => (y - (x :: xs).sum / (((x :: xs).length : ℕ) : ℚ)) ^ 2)).sum)
        / ((((x :: xs).length : ℕ) : ℚ) - 1), get_aqi_statistics_eq df x xs hm, ?_, ?_⟩
    · show series_std_sq (x :: xs) = _
      unfold series_std_sq
      rw [if_neg (by omega)]
    · rw [hm]
      set l := x :: xs with hl
      have hn : (1 : ℕ) < l.length := hlen
      have hnq : (2 : ℚ) ≤ (l.length : ℚ) := by exact_mod_cast hn
      have hne : (l.length : ℚ) ≠ 0 := by linarith
      have hne1 : (l.length : ℚ) - 1 ≠ 0 := by linarith
      rw [sum_sq_dev l (l.sum / (l.length : ℚ))]
      field_simp
      ring
  · intro hlen
    obtain ⟨x, hm⟩ : ∃ x, validAqi df = [x] := by
      cases hv : validAqi df with
      | nil => rw [hv] at hlen; simp at hlen
      | cons y ys =>
          rw [hv] at hlen
          simp at hlen
          exact ⟨y, by rw [hlen]⟩
    refine ⟨_, get_aqi_statistics_eq df x [] hm, ?_⟩
    unfold series_std_sq
    rw [if_pos (by simp)]
  · intro hlen
    exact get_aqi_statistics_none df (List.eq_nil_of_length_eq_zero hlen)

/-- Witness for C4 at a concrete two-value frame (AQI 1 and 3): the sample
variance identity holds there. -/
theorem c4_sample_std_witness :
    1 < (validAqi df_pair).length
  ∧ (∃ st v, get_aqi_statistics df_pair = some st ∧ st.aqi_std = some v
      ∧ v * (((validAqi df_pair).length : ℚ) * (((validAqi df_pair).length : ℚ) - 1))
          = ((validAqi df_pair).length : ℚ) * ((validAqi df_pair).map (fun x => x ^ 2)).sum
            - ((validAqi df_pair).sum) ^ 2) :=
  ⟨by decide, (c4_sample_std df_pair).1 (by decide)⟩

/-- Claim C5: an all-missing aggregation field yields the empty dictionary,
which behaves as default zero values under the callers' `get(key, 0)` reads
and never raises; the `stations_with_data` count read is 0 exactly in that
case, letting callers distinguish "zero" from "no data"; with at least one
non-missing value the statistics are computed over the non-missing subset
only — appending a missing-AQI record changes none of the value statistics —
and the empty distance frame likewise yields the empty dictionary. -/
theorem c5_all_missing_defaults :
    (∀ df : List StationRecord, validAqi df = [] →
        get_aqi_statistics df = Option.none
      ∧ stats_get_nat (get_aqi_statistics df) AqiStats.stations_with_data = 0
      ∧ stats_get_nat (get_aqi_statistics df) AqiStats.total_stations = 0
      ∧ stats_get_rat (get_aqi_statistics df) AqiStats.aqi_mean = 0
      ∧ stats_get_rat (get_aqi_statistics df) AqiStats.aqi_min = 0
      ∧ stats_get_rat (get_aqi_statistics df) AqiStats.aqi_max = 0)
  ∧ (∀ df : List StationRecord,
      (stats_get_nat (get_aqi_statistics df) AqiStats.stations_with_data = 0 ↔ validAqi df = []))
  ∧ (∀ df : List StationRecord, validAqi df ≠ [] →
      ∃ st, get_aqi_statistics df = some st ∧ st.stations_with_data = (validAqi df).length)
  ∧ (∀ (df : List StationRecord) (r : StationRecord), r.aqi = Option.none →
      (get_aqi_statistics (df ++ [r])).map
          (fun st => (st.aqi_mean, st.aqi_min, st.aqi_max, st.aqi_std,
            st.stations_with_data, st.categories))
        = (get_aqi_statistics df).map
          (fun st => (st.aqi_mean, st.aqi_min, st.aqi_max, st.aqi_std,
            st.stations_with_data, st.categories)))
  ∧ get_distance_statistics ([] : List DistanceInfo) = Option.none := by
  refine ⟨?_, ?_, ?_, ?_, rfl⟩
  · intro df h
    refine ⟨get_aqi_statistics_none df h, ?_, ?_, ?_, ?_, ?_⟩ <;>
      rw [get_aqi_statistics_none df h] <;> rfl
  · intro df
    cases hv : validAqi df with
    | nil =>
        rw [get_aqi_statistics_none df hv]
        simp [stats_get_nat]
    | cons x xs =>
        rw [get_aqi_statistics_eq df x xs hv]
        simp [stats_get_nat]
  · intro df h
    obtain ⟨x, xs, hm⟩ : ∃ x xs, validAqi df = x :: xs := by
      cases hv : validAqi df
      · exact absurd hv h
      · exact ⟨_, _, rfl⟩
    exact ⟨_, get_aqi_statistics_eq df x xs hm, by rw [hm]⟩
  · intro df r hr
    have hv2 : validAqi (df ++ [r]) = validAqi df := by
      simp [validAqi, hr]
    cases hv : validAqi df with
    | nil =>
        rw [get_aqi_statistics_none _ (hv2.trans hv), get_aqi_statistics_none _ hv]
    | cons x xs =>
        rw [get_aqi_statistics_eq _ x xs (hv2.trans hv), get_aqi_statistics_eq _ x xs hv]
        rfl

/-- Witness for C5 at a concrete one-reading frame: the count field equals
the number of non-missing values. -/
theorem c5_all_missing_defaults_witness :
    ∃ st, get_aqi_statistics df_single30 = some st
      ∧ st.stations_with_data = (validAqi df_single30).length :=
  (c5_all_missing_defaults).2.2.1 df_single30 (by decide)

/-- Helper: every pair in a `value_counts` result is an occurring label with
its positive occurrence count. -/
lemma value_counts_mem (l : List String) (lbl : String) (n : Nat)
    (h : (lbl, n) ∈ value_counts l) : lbl ∈ l ∧ n = l.count lbl := by
  unfold value_counts at h
  obtain ⟨v, hv, hpair⟩ := List.mem_map.mp h
  obtain ⟨h1, h2⟩ := Prod.mk.injEq .. ▸ hpair
  subst h1
  exact ⟨List.mem_dedup.mp hv, h2.symm⟩

/-- Helper: a label absent from the column does not occur in `value_counts`. -/
lemma value_counts_not_mem (l : List String) (lbl : String) (hlbl : lbl ∉ l) :
    ∀ n, (lbl, n) ∉ value_counts l := by
  intro n h
  exact hlbl (value_counts_mem l lbl n h).1

/-- Helper: the computed statistics of a non-empty distance frame. -/
lemma get_distance_statistics_eq (x : DistanceInfo) (xs : List DistanceInfo) :
    ∃ st, get_distance_statistics (x :: xs) = some st
      ∧ st.categories = value_counts ((x :: xs).map (fun r => r.distance_category)) :=
  ⟨_, rfl, rfl⟩

/-- Counterexample to claim C7 as stated: on a frame with one AQI reading of
30 (band good/良好), `get_aqi_statistics` reports every other band with an
explicit count of zero instead of omitting it. -/
theorem c7_zero_count_bands_counterexample :
    (get_aqi_statistics df_single30).map AqiStats.categories
      = some [("良好", 1), ("普通", 0), ("對敏感族群不健康", 0), ("對所有族群不健康", 0),
              ("非常不健康", 0), ("危險", 0)] := by
  decide

/-- Claim C7 (amended): in the distance-band distribution a band label with
zero occurrences is omitted — every reported pair has a positive count and a
witnessing record, and an unused label never appears — but in the AQI-band
distribution all six band labels are always reported, including those with a
count of zero. -/
theorem c7_zero_count_bands :
    (∀ (ddf : List DistanceInfo) (st : DistanceStats), get_distance_statistics ddf = some st →
        ∀ lbl n, (lbl, n) ∈ st.categories →
          0 < n ∧ ∃ e ∈ ddf, e.distance_category = lbl)
  ∧ (∀ (ddf : List DistanceInfo) (st : DistanceStats) (lbl : String),
        get_distance_statistics ddf = some st →
        (∀ e ∈ ddf, e.distance_category ≠ lbl) → ∀ n, (lbl, n) ∉ st.categories)
  ∧ (∀ (df : List StationRecord) (st : AqiStats), get_aqi_statistics df = some st →
        ∀ c ∈ aqi_categories, (c.1, categoryCount c (validAqi df)) ∈ st.categories) := by
  refine ⟨?_, ?_, ?_⟩
  · intro ddf st h lbl n hmem
    cases ddf with
    | nil => exact absurd h (by simp [get_distance_statistics])
    | cons x xs =>
        obtain ⟨st', hst', hcat⟩ := get_distance_statistics_eq x xs
        rw [hst'] at h
        obtain rfl : st' = st := Option.some.injEq .. ▸ h
        rw [hcat] at hmem
        obtain ⟨hin, hcount⟩ := value_counts_mem _ lbl n hmem
        constructor
        · rw [hcount]
          exact List.count_pos_iff.mpr hin
        · obtain ⟨e, he, hel⟩ := List.mem_map.mp hin
          exact ⟨e, he, hel⟩
  · intro ddf st lbl h habs n hmem
    cases ddf with
    | nil => exact absurd h (by simp [get_distance_statistics])
    | cons x xs =>
        obtain ⟨st', hst', hcat⟩ := get_distance_statistics_eq x xs
        rw [hst'] at h
        obtain rfl : st' = st := Option.some.injEq .. ▸ h
        rw [hcat] at hmem
        refine value_counts_not_mem _ lbl ?_ n hmem
        intro hin
        obtain ⟨e, he, hel⟩ := List.mem_map.mp hin
        exact habs e he hel
  · intro df st h c hc
    cases hv : validAqi df with
    | nil => rw [get_aqi_statistics_none df hv] at h; exact absurd h (by simp)
    | cons x xs =>
        rw [get_aqi_statistics_eq df x xs hv] at h
        obtain rfl : _ = st := Option.some.injEq .. ▸ h
        exact List.mem_map_of_mem (fun c => (c.1, categoryCount c (x :: xs))) hc

/-- Witness for C7 at a concrete one-reading frame: the good band appears in
the reported AQI distribution. -/
theorem c7_zero_count_bands_witness :
    ∃ st, get_aqi_statistics df_single30 = some st
      ∧ (("良好", categoryCount ("良好", (0, 50)) (validAqi df_single30)) ∈ st.categories) :=
  ⟨_, get_aqi_statistics_eq df_single30 30 [] (by decide),
   (c7_zero_count_bands).2.2 df_single30 _
     (get_aqi_statistics_eq df_single30 30 [] (by decide)) ("良好", (0, 50)) (by decide)⟩

/-- Helper: a successful `sort_values` preserves length and implies a
non-empty input frame. -/
lemma sort_values_ok (l sorted : List DistanceInfo)
    (h : sort_values l = Except.ok sorted) : sorted.length = l.length ∧ l ≠ [] := by
  cases l with
  | nil => exact absurd h (by simp [sort_values])
  | cons x xs =>
      simp only [sort_values, Except.ok.injEq] at h
      subst h
      exact ⟨List.length_mergeSort _, by simp⟩

/-- Helper: membership is preserved by `sort_values`. -/
lemma sort_values_mem (l sorted : List DistanceInfo)
    (h : sort_values l = Except.ok sorted) : ∀ e ∈ sorted, e ∈ l := by
  cases l with
  | nil => exact absurd h (by simp [sort_values])
  | cons x xs =>
      simp only [sort_values, Except.ok.injEq] at h
      subst h
      intro e he
      exact List.mem_mergeSort.mp he

/-- Helper: a successful `analyze_distances` run is a successful sort of the
distance rows of the valid-coordinate records. -/
lemma analyze_distances_ok (df : List StationRecord) (l : List DistanceInfo)
    (h : analyze_distances df = Except.ok l) :
    sort_values ((df.filter validCoords).map makeDistanceInfo) = Except.ok l := by
  unfold analyze_distances at h
  by_cases hdf : df.isEmpty = true
  · rw [if_pos hdf] at h
    exact absurd h (by simp)
  · rwa [if_neg hdf] at h

/-- Claim C6: on an input with no records, or with no valid-coordinate records
left after filtering, the distance pipeline fails hard with an error (the
empty fetch message respectively the pandas `KeyError` on the column-less
empty frame), and a successful run never returns an empty result. -/
theorem c6_empty_input_fails :
    (∀ df : List StationRecord, (df = [] ∨ df.filter validCoords = []) →
        ∃ m, analyze_distances df = Except.error m)
  ∧ (∀ (df : List StationRecord) (l : List DistanceInfo),
        analyze_distances df = Except.ok l → l ≠ []) := by
  constructor
  · intro df h
    rcases h with h | h
    · subst h
      exact ⟨"無法獲取AQI數據", rfl⟩
    · cases hdf : df.isEmpty
      · refine ⟨"KeyError: distance_to_taipei", ?_⟩
        unfold analyze_distances
        rw [if_neg (by simp [hdf]), h, List.map_nil]
        rfl
      · exact ⟨"無法獲取AQI數據", by unfold analyze_distances; rw [if_pos hdf]⟩
  · intro df l h
    obtain ⟨hlen, hne⟩ := sort_values_ok _ _ (analyze_distances_ok df l h)
    intro hl
    subst hl
    simp only [List.length_nil] at hlen
    exact hne (List.eq_nil_of_length_eq_zero hlen.symm)

/-- Witness for C6 at the concrete empty input: the pipeline errors. -/
theorem c6_empty_input_fails_witness :
    ∃ m, analyze_distances [] = Except.error m :=
  (c6_empty_input_fails).1 [] (Or.inl rfl)

/-- Claim C9: a record whose coordinates are exactly (0,0) fails the
valid-coordinate filter and so never receives a distance or a distance band
and never appears in the spatially enriched output; every row of a successful
run comes from a record whose latitude and longitude are both present and
nonzero, and the map renderer's frame keeps only such records. -/
theorem c9_zero_coords_excluded :
    (∀ r : StationRecord, r.latitude = some 0 → r.longitude = some 0 →
        validCoords r = false)
  ∧ (∀ (df : List StationRecord) (l : List DistanceInfo),
        analyze_distances df = Except.ok l →
        ∀ e ∈ l, ∃ r ∈ df, validCoords r = true ∧ e = makeDistanceInfo r)
  ∧ (∀ (df : List StationRecord) (r : StationRecord),
        r ∈ create_aqi_map_valid_df df → r ∈ df ∧ validCoords r = true) := by
  refine ⟨?_, ?_, ?_⟩
  · intro r h1 h2
    simp [validCoords, h1, h2]
  · intro df l h e he
    have hmem := sort_values_mem _ _ (analyze_distances_ok df l h) e he
    obtain ⟨r, hr, hre⟩ := List.mem_map.mp hmem
    obtain ⟨hrdf, hrvalid⟩ := List.mem_filter.mp hr
    exact ⟨r, hrdf, hrvalid, hre.symm⟩
  · intro df r h
    exact List.mem_filter.mp h

/-- Witness for C9 at a concrete (0,0) record: the filter excludes it. -/
theorem c9_zero_coords_excluded_witness :
    validCoords (mkStation (some 0) (some 0) Option.none) = false :=
  (c9_zero_coords_excluded).1 (mkStation (some 0) (some 0) Option.none) rfl rfl

/-- Helper: `calculate_distance` written through `hav_a`. -/
lemma calculate_distance_eq (lat1 lon1 lat2 lon2 : ℝ) :
    calculate_distance lat1 lon1 lat2 lon2 =
      6371.0 * (2 * atan2 (Real.sqrt (hav_a lat1 lon1 lat2 lon2))
        (Real.sqrt (1 - hav_a lat1 lon1 lat2 lon2))) := rfl

/-- Helper: the Haversine intermediate is symmetric in its two points. -/
lemma hav_a_symm (lat1 lon1 lat2 lon2 : ℝ) :
    hav_a lat1 lon1 lat2 lon2 = hav_a lat2 lon2 lat1 lon1 := by
  unfold hav_a
  have h1 : (radians lat1 - radians lat2) / 2 = -((radians lat2 - radians lat1) / 2) := by
    ring
  have h2 : (radians lon1 - radians lon2) / 2 = -((radians lon2 - radians lon1) / 2) := by
    ring
  rw [h1, h2, Real.sin_neg, Real.sin_neg]
  ring

/-- Helper: the Haversine intermediate vanishes on coincident points. -/
lemma hav_a_self (lat lon : ℝ) : hav_a lat lon lat lon = 0 := by
  unfold hav_a
  simp

/-- Helper: the restricted `atan2` is nonnegative on nonnegative first
argument. -/
lemma atan2_nonneg (y x : ℝ) (hy : 0 ≤ y) : 0 ≤ atan2 y x := by
  unfold atan2
  split_ifs with hx hy'
  · have h0 : (0 : ℝ) ≤ y / x := div_nonneg hy hx.le
    have hmono := Real.arctan_strictMono.monotone h0
    rwa [Real.arctan_zero] at hmono
  · linarith [Real.pi_pos]
  · exact le_refl 0

/-- Helper: on nonnegative first argument, the restricted `atan2` vanishes
exactly when that argument does. -/
lemma atan2_eq_zero_iff (y x : ℝ) (hy : 0 ≤ y) : atan2 y x = 0 ↔ y = 0 := by
  unfold atan2
  split_ifs with hx hy'
  · constructor
    · intro h
      have h0 : y / x = 0 := Real.arctan_eq_zero_iff.mp h
      rcases div_eq_zero_iff.mp h0 with h' | h'
      · exact h'
      · exact absurd h' (ne_of_gt hx)
    · intro h
      rw [h, zero_div, Real.arctan_zero]
  · constructor
    · intro h
      exfalso
      have := Real.pi_pos
      linarith
    · intro h
      exact absurd h (ne_of_gt hy')
  · constructor
    · intro _
      exact le_antisymm (not_lt.mp hy') hy
    · intro _
      rfl

/-- Helper: the cosine of the radian measure of a latitude strictly between
−90 and 90 degrees is positive. -/
lemma cos_radians_pos {x : ℝ} (h1 : -90 < x) (h2 : x < 90) :
    0 < Real.cos (radians x) := by
  have hp := Real.pi_pos
  apply Real.cos_pos_of_mem_Ioo
  rw [Set.mem_Ioo]
  unfold radians
  constructor
  · have hstep : (-90 : ℝ) * (Real.pi / 180) < x * (Real.pi / 180) :=
      mul_lt_mul_of_pos_right h1 (by positivity)
    have heq : (-90 : ℝ) * (Real.pi / 180) = -(Real.pi / 2) := by ring
    linarith
  · have hstep : x * (Real.pi / 180) < 90 * (Real.pi / 180) :=
      mul_lt_mul_of_pos_right h2 (by positivity)
    have heq : (90 : ℝ) * (Real.pi / 180) = Real.pi / 2 := by ring
    linarith

/-- Helper: a degree angle of magnitude below 360 whose half radian measure
has vanishing sine is zero. -/
lemma sin_radians_half_eq_zero {x : ℝ} (hb : |x| < 360)
    (h : Real.sin (radians x / 2) = 0) : x = 0 := by
  have hp := Real.pi_pos
  have heq : radians x / 2 = x * (Real.pi / 360) := by
    unfold radians
    ring
  rw [heq] at h
  obtain ⟨h1, h2⟩ := abs_lt.mp hb
  have hlt : x * (Real.pi / 360) < Real.pi := by
    have hstep : x * (Real.pi / 360) < 360 * (Real.pi / 360) :=
      mul_lt_mul_of_pos_right h2 (by positivity)
    have heq : (360 : ℝ) * (Real.pi / 360) = Real.pi := by ring
    linarith
  have hgt : -Real.pi < x * (Real.pi / 360) := by
    have hstep : (-360 : ℝ) * (Real.pi / 360) < x * (Real.pi / 360) :=
      mul_lt_mul_of_pos_right h1 (by positivity)
    have heq : (-360 : ℝ) * (Real.pi / 360) = -Real.pi := by ring
    linarith
  have hz := (Real.sin_eq_zero_iff_of_lt_of_lt hgt hlt).mp h
  rcases mul_eq_zero.mp hz with h' | h'
  · exact h'
  · exfalso
    have hppos : (0 : ℝ) < Real.pi / 360 := by positivity
    rw [h'] at hppos
    exact lt_irrefl 0 hppos

/-- Claim C8: the Haversine distance is symmetric in its two points, always
nonnegative, zero on coincident points, and — for coordinates in the
principal ranges (latitudes strictly between −90 and 90, longitudes in
(−180, 180]), where coincidence of points is coincidence of coordinates — it
is zero exactly when the two points coincide. -/
theorem c8_haversine_metric (lat1 lon1 lat2 lon2 : ℝ) :
    calculate_distance lat1 lon1 lat2 lon2 = calculate_distance lat2 lon2 lat1 lon1
  ∧ 0 ≤ calculate_distance lat1 lon1 lat2 lon2
  ∧ calculate_distance lat1 lon1 lat1 lon1 = 0
  ∧ (-90 < lat1 → lat1 < 90 → -90 < lat2 → lat2 < 90 →
     -180 < lon1 → lon1 ≤ 180 → -180 < lon2 → lon2 ≤ 180 →
      (calculate_distance lat1 lon1 lat2 lon2 = 0 ↔ lat1 = lat2 ∧ lon1 = lon2)) := by
  refine ⟨?_, ?_, ?_, ?_⟩
  · rw [calculate_distance_eq, calculate_distance_eq, hav_a_symm]
  · rw [calculate_distance_eq]
    have h := atan2_nonneg (Real.sqrt (hav_a lat1 lon1 lat2 lon2))
      (Real.sqrt (1 - hav_a lat1 lon1 lat2 lon2)) (Real.sqrt_nonneg _)
    linarith
  · rw [calculate_distance_eq, hav_a_self, Real.sqrt_zero, sub_zero, Real.sqrt_one]
    unfold atan2
    rw [if_pos one_pos, zero_div, Real.arctan_zero]
    ring
  · intro hl1 hl2 hl3 hl4 ho1 ho2 ho3 ho4
    constructor
    · intro hd
      rw [calculate_distance_eq] at hd
      have hatan : atan2 (Real.sqrt (hav_a lat1 lon1 lat2 lon2))
          (Real.sqrt (1 - hav_a lat1 lon1 lat2 lon2)) = 0 := by
        linarith
      have hsq : Real.sqrt (hav_a lat1 lon1 lat2 lon2) = 0 :=
        (atan2_eq_zero_iff _ _ (Real.sqrt_nonneg _)).mp hatan
      have hale : hav_a lat1 lon1 lat2 lon2 ≤ 0 := Real.sqrt_eq_zero'.mp hsq
      have hc1 := cos_radians_pos hl1 hl2
      have hc2 := cos_radians_pos hl3 hl4
      have hs1 : 0 ≤ Real.sin ((radians lat2 - radians lat1) / 2) ^ 2 := sq_nonneg _
      have hs2 : 0 ≤ Real.sin ((radians lon2 - radians lon1) / 2) ^ 2 := sq_nonneg _
      have hterm2 : 0 ≤ Real.cos (radians lat1) * Real.cos (radians lat2) *
          Real.sin ((radians lon2 - radians lon1) / 2) ^ 2 :=
        mul_nonneg (mul_pos hc1 hc2).le hs2
      unfold hav_a at hale
      have keyl : Real.sin ((radians lat2 - radians lat1) / 2) ^ 2 = 0 := by
        linarith
      have keyr : Real.cos (radians lat1) * Real.cos (radians lat2) *
          Real.sin ((radians lon2 - radians lon1) / 2) ^ 2 = 0 := by
        linarith
      have hsin1 : Real.sin ((radians lat2 - radians lat1) / 2) = 0 :=
        (pow_eq_zero_iff (two_ne_zero)).mp keyl
      have hsin2 : Real.sin ((radians lon2 - radians lon1) / 2) = 0 := by
        have hcc : 0 < Real.cos (radians lat1) * Real.cos (radians lat2) := mul_pos hc1 hc2
        rcases mul_eq_zero.mp keyr with h' | h'
        · exact absurd h' (ne_of_gt hcc)
        · exact (pow_eq_zero_iff (two_ne_zero)).mp h'
      have hr1 : radians lat2 - radians lat1 = radians (lat2 - lat1) := by
        unfold radians
        ring
      have hr2 : radians lon2 - radians lon1 = radians (lon2 - lon1) := by
        unfold radians
        ring
      rw [hr1] at hsin1
      rw [hr2] at hsin2
      have hlat : lat2 - lat1 = 0 := by
        apply sin_radians_half_eq_zero _ hsin1
        rw [abs_lt]
        constructor <;> linarith
      have hlon : lon2 - lon1 = 0 := by
        apply sin_radians_half_eq_zero _ hsin2
        rw [abs_lt]
        constructor <;> linarith
      constructor <;> linarith
    · rintro ⟨h1, h2⟩
      subst h1
      subst h2
      rw [calculate_distance_eq, hav_a_self, Real.sqrt_zero, sub_zero, Real.sqrt_one]
      unfold atan2
      rw [if_pos one_pos, zero_div, Real.arctan_zero]
      ring

/-- Witness for C8 at concrete points: the reference point is at distance 0
from itself — via the zero-iff direction with its range hypotheses discharged
numerically — and a concrete pair of points has symmetric distances. -/
theorem c8_haversine_metric_witness :
    calculate_distance 25 121 25 121 = 0
  ∧ calculate_distance 25 121 24 120 = calculate_distance 24 120 25 121 :=
  ⟨((c8_haversine_metric 25 121 25 121).2.2.2 (by norm_num) (by norm_num) (by norm_num)
      (by norm_num) (by norm_num) (by norm_num) (by norm_num) (by norm_num)).mpr ⟨rfl, rfl⟩,
   (c8_haversine_metric 25 121 24 120).1⟩

/-- Witness for C10 at a concrete value: the two classifiers agree on 30. -/
theorem c10_coarse_classifiers_agree_witness :
    get_aqi_color (some 30) = "#00E400" ↔ get_aqi_level (some 30) = "良好" :=
  ((c10_coarse_classifiers_agree (some 30)).1).1
